import Mathlib

/-!
Verification of the validation-error normalizer and responder in `src/main.py`.

The program has two parts:
* `loc_to_field` — a pure function mapping a pydantic error "loc" sequence
  (a list whose elements are strings, ints, or defensively `None`) to a
  display field string;
* `validation_exception_handler` — the FastAPI exception handler that maps a
  batch of raw validation errors to a fixed 422 JSON envelope.

We embed both shallowly: a location segment becomes an inductive `Segment`
(strings, integers, the `None` marker, and an `other` constructor standing for
any unexpected Python value together with its `str()` rendering), the error
dictionaries become records with optional fields (mirroring `.get(key, default)`),
and the handler becomes a pure function from the error batch to a response value.
-/

/-- One element of a pydantic `loc` tuple: a string, an int, Python `None`,
or any other unexpected value carrying its generic `str()` form. -/
inductive Segment where
  | str (s : String)
  | int (n : Int)
  | null
  | other (s : String)
deriving DecidableEq, Repr

/-- Python `x is None` test used by the defensive filter in `loc_to_field`. -/
def Segment.isNull : Segment → Bool
  | .null => true
  | _ => false

/-- Python `isinstance(x, int)` on a segment. -/
def Segment.isInt : Segment → Bool
  | .int _ => true
  | _ => false

/-- Python `str(x)` on a segment (total: `str` is defined on every value). -/
def Segment.toStr : Segment → String
  | .str s => s
  | .int n => toString n
  | .null => "None"
  | .other s => s

/-- Embedding of `loc_to_field` from `src/main.py` lines 9–43:
empty input returns `""`; `None` segments are filtered; a cleaned sequence
headed by `"body"` returns `"body"` when alone or when every following
segment is an int, otherwise the tail joined with `"."`; any other head
returns all cleaned segments joined with `"."`. -/
def loc_to_field (loc : List Segment) : String :=
  if loc.isEmpty then ""
  else
    let loc_clean := loc.filter (fun x => !x.isNull)
    if loc_clean.isEmpty then ""
    else if loc_clean.head? = some (Segment.str "body") then
      if loc_clean.length = 1 then "body"
      else
        let rest := loc_clean.tail
        if !rest.isEmpty && rest.all Segment.isInt then "body"
        else String.intercalate "." (rest.map Segment.toStr)
    else
      String.intercalate "." (loc_clean.map Segment.toStr)

/-- `str(x)` as a fallible Python operation: it succeeds on every segment
shape, which is what makes `loc_to_field` raise-free. -/
def Segment.toStrE (x : Segment) : Except String String :=
  Except.ok x.toStr

/-- Converting a whole segment list to strings, propagating any exception. -/
def mapStrE : List Segment → Except String (List String)
  | [] => Except.ok []
  | x :: xs => do
    let s ← x.toStrE
    let rest ← mapStrE xs
    Except.ok (s :: rest)

/-- `loc_to_field` with every string conversion routed through the fallible
`Segment.toStrE`, so that a raise anywhere inside would surface as
`Except.error`. -/
def loc_to_fieldE (loc : List Segment) : Except String String :=
  if loc.isEmpty then Except.ok ""
  else
    let loc_clean := loc.filter (fun x => !x.isNull)
    if loc_clean.isEmpty then Except.ok ""
    else if loc_clean.head? = some (Segment.str "body") then
      if loc_clean.length = 1 then Except.ok "body"
      else
        let rest := loc_clean.tail
        if !rest.isEmpty && rest.all Segment.isInt then Except.ok "body"
        else do
          let parts ← mapStrE rest
          Except.ok (String.intercalate "." parts)
    else do
      let parts ← mapStrE loc_clean
      Except.ok (String.intercalate "." parts)

/-- A raw validation error as consumed by the handler: dictionary access
`e.get("loc", [])`, `e.get("msg", "")`, `e.get("type", "")` is modelled by
optional fields with `Option.getD`. -/
structure RawError where
  loc : Option (List Segment) := none
  msg : Option String := none
  type : Option String := none
deriving DecidableEq, Repr

/-- One entry of the `details` list: exactly the keys `field`, `message`,
`type`. -/
structure Detail where
  field : String
  message : String
  type : String
deriving DecidableEq, Repr

/-- The `error` object of the envelope. -/
structure ErrorInfo where
  code : Nat
  message : String
  details : List Detail
deriving DecidableEq, Repr

/-- The response body `{"error": {...}}`. -/
structure Envelope where
  error : ErrorInfo
deriving DecidableEq, Repr

/-- The produced `JSONResponse`: a status code plus the JSON content. -/
structure JSONResponse where
  status_code : Nat
  content : Envelope
deriving DecidableEq, Repr

/-- The per-error body of the loop in `validation_exception_handler`
(`src/main.py` lines 49–55): build one detail record from one raw error. -/
def detail_of_error (e : RawError) : Detail :=
  { field := loc_to_field (e.loc.getD [])
  , message := e.msg.getD ""
  , type := e.type.getD "" }

/-- Embedding of `validation_exception_handler` from `src/main.py` lines
46–66.  The `request` argument is kept (polymorphically) to mirror the
Python signature, where it is likewise unused; `errors` stands for
`exc.errors()`. -/
def validation_exception_handler {Request : Type} (request : Request)
    (errors : List RawError) : JSONResponse :=
  { status_code := 422
  , content :=
    { error :=
      { code := 422
      , message := "Validation Error"
      , details := errors.map detail_of_error } } }

/-- Characterization of `loc_to_field` by the shape of the cleaned
(`None`-filtered) segment list. -/
theorem loc_to_field_eq (loc : List Segment) :
    loc_to_field loc =
      match loc.filter (fun x => !x.isNull) with
      | [] => ""
      | a :: rest =>
        if a = Segment.str "body" then
          if rest = [] then "body"
          else if rest.all Segment.isInt then "body"
          else String.intercalate "." (rest.map Segment.toStr)
        else String.intercalate "." ((a :: rest).map Segment.toStr) := by
  cases hf : loc.filter (fun x => !x.isNull) with
  | nil =>
    cases loc with
    | nil => rfl
    | cons b l => simp [loc_to_field, hf]
  | cons a rest =>
    have hne : loc.isEmpty = false := by
      cases loc with
      | nil => simp at hf
      | cons b l => rfl
    by_cases hb : a = Segment.str "body"
    · subst hb
      cases rest with
      | nil => simp [loc_to_field, hf, hne]
      | cons c cs => simp [loc_to_field, hf, hne]
    · simp [loc_to_field, hf, hne, hb]

/-- C1: for every location whose first cleaned segment is the literal
`"body"`, if every cleaned segment after the first is an integer — in
particular when there are none at all, i.e. `"body"` is the only cleaned
segment — `loc_to_field` returns `"body"` (the decode-position rule). -/
theorem loc_to_field_body_ints (loc : List Segment)
    (hhead : (loc.filter (fun x => !x.isNull)).head? = some (Segment.str "body"))
    (hints : (loc.filter (fun x => !x.isNull)).tail.all Segment.isInt = true) :
    loc_to_field loc = "body" := by
  cases hf : loc.filter (fun x => !x.isNull) with
  | nil => rw [hf] at hhead; simp at hhead
  | cons a rest =>
    rw [hf] at hhead hints
    simp only [List.head?_cons, Option.some.injEq] at hhead
    subst hhead
    rw [loc_to_field_eq, hf]
    simp only [List.tail_cons] at hints
    cases rest with
    | nil => simp
    | cons c cs => simp [hints]

/-- C1 witness: `loc_to_field ["body", 0, 1] = "body"`. -/
theorem loc_to_field_body_ints_witness :
    loc_to_field [Segment.str "body", Segment.int 0, Segment.int 1] = "body" :=
  loc_to_field_body_ints _ (by decide) (by decide)

/-- C2: for every location whose first cleaned segment is `"body"` and whose
cleaned tail contains at least one non-integer segment, `loc_to_field`
returns the cleaned tail segments, each in string form, joined with `"."`,
with the leading `"body"` stripped. -/
theorem loc_to_field_body_fields (loc : List Segment)
    (hhead : (loc.filter (fun x => !x.isNull)).head? = some (Segment.str "body"))
    (hnon : (loc.filter (fun x => !x.isNull)).tail.all Segment.isInt = false) :
    loc_to_field loc =
      String.intercalate "."
        ((loc.filter (fun x => !x.isNull)).tail.map Segment.toStr) := by
  cases hf : loc.filter (fun x => !x.isNull) with
  | nil => rw [hf] at hhead; simp at hhead
  | cons a rest =>
    rw [hf] at hhead hnon
    simp only [List.head?_cons, Option.some.injEq] at hhead
    subst hhead
    rw [loc_to_field_eq, hf]
    simp only [List.tail_cons] at hnon ⊢
    cases rest with
    | nil => simp at hnon
    | cons c cs => simp [hnon]

/-- C2 witness: `loc_to_field ["body", "items", 0, "name"] = "items.0.name"`. -/
theorem loc_to_field_body_fields_witness :
    loc_to_field [Segment.str "body", Segment.str "items", Segment.int 0,
      Segment.str "name"] = "items.0.name" := by
  have h := loc_to_field_body_fields
    [Segment.str "body", Segment.str "items", Segment.int 0, Segment.str "name"]
    (by decide) (by decide)
  rw [h]
  rfl

/-- C3: for every location whose first cleaned segment is anything other
than `"body"`, `loc_to_field` returns all cleaned segments in string form
joined with `"."`, keeping the first segment as a namespace prefix. -/
theorem loc_to_field_non_body (loc : List Segment) (a : Segment)
    (hhead : (loc.filter (fun x => !x.isNull)).head? = some a)
    (hnb : a ≠ Segment.str "body") :
    loc_to_field loc =
      String.intercalate "."
        ((loc.filter (fun x => !x.isNull)).map Segment.toStr) := by
  cases hf : loc.filter (fun x => !x.isNull) with
  | nil => rw [hf] at hhead; simp at hhead
  | cons b rest =>
    rw [hf] at hhead
    simp only [List.head?_cons, Option.some.injEq] at hhead
    subst hhead
    rw [loc_to_field_eq, hf]
    simp [hnb]

/-- C3 witness: `loc_to_field ["query", "limit"] = "query.limit"`. -/
theorem loc_to_field_non_body_witness :
    loc_to_field [Segment.str "query", Segment.str "limit"] = "query.limit" := by
  have h := loc_to_field_non_body [Segment.str "query", Segment.str "limit"]
    (Segment.str "query") (by decide) (by decide)
  rw [h]
  rfl

/-- C4: for every batch of raw errors, the handler's `details` list has
exactly one entry per input error, in input order; the `i`-th entry's
`field` is `loc_to_field` of the `i`-th error's location, and its `message`
and `type` are copied verbatim with `""` as the default for absent keys. -/
theorem handler_details_pointwise (errors : List RawError) (i : Nat)
    (h : i < errors.length) :
    (validation_exception_handler () errors).content.error.details.length
        = errors.length ∧
    (validation_exception_handler () errors).content.error.details[i]? =
      some { field := loc_to_field ((errors.get ⟨i, h⟩).loc.getD [])
           , message := (errors.get ⟨i, h⟩).msg.getD ""
           , type := (errors.get ⟨i, h⟩).type.getD "" } := by
  refine ⟨by simp [validation_exception_handler], ?_⟩
  simp [validation_exception_handler, detail_of_error,
    List.getElem?_eq_getElem (by simpa using h)]

/-- C4 witness: a one-error batch, inspected at index 0. -/
theorem handler_details_pointwise_witness :
    (validation_exception_handler ()
      [({ loc := some [Segment.str "query", Segment.str "limit"]
        , msg := some "value is not a valid integer"
        , type := some "int_parsing" } : RawError)]).content.error.details.length
      = 1 ∧
    (validation_exception_handler ()
      [({ loc := some [Segment.str "query", Segment.str "limit"]
        , msg := some "value is not a valid integer"
        , type := some "int_parsing" } : RawError)]).content.error.details[0]? =
      some { field := "query.limit", message := "value is not a valid integer"
           , type := "int_parsing" } := by
  have h := handler_details_pointwise
    [({ loc := some [Segment.str "query", Segment.str "limit"]
      , msg := some "value is not a valid integer"
      , type := some "int_parsing" } : RawError)] 0 (by decide)
  refine ⟨h.1, ?_⟩
  rw [h.2]
  rfl

/-- C5: for every batch of raw errors (and any request value), the handler
returns status 422 and the exact envelope
`{error := {code := 422, message := "Validation Error", details := ...}}`
with the normalized details list. -/
theorem handler_envelope {Request : Type} (request : Request)
    (errors : List RawError) :
    (validation_exception_handler request errors).status_code = 422 ∧
    (validation_exception_handler request errors).content =
      { error := { code := 422, message := "Validation Error"
                 , details := errors.map detail_of_error } } :=
  ⟨rfl, rfl⟩

/-- C6: `loc_to_field` never raises: running the same algorithm with every
string conversion made fallible always yields `Except.ok` of the value of
the total function, for every input location. -/
theorem loc_to_fieldE_ok (loc : List Segment) :
    loc_to_fieldE loc = Except.ok (loc_to_field loc) := by
  have hmap : ∀ l : List Segment,
      mapStrE l = Except.ok (l.map Segment.toStr) := by
    intro l
    induction l with
    | nil => rfl
    | cons x xs ih => simp [mapStrE, Segment.toStrE, ih]; rfl
  simp only [loc_to_fieldE, loc_to_field]
  split_ifs <;> simp [hmap] <;> rfl

/-- C7: `loc_to_field` filters out all `None` segments before any other
rule (its value on a location equals its value on the `None`-filtered
location), and whenever the cleaned sequence is empty it returns `""`. -/
theorem loc_to_field_filters_first (loc : List Segment) :
    loc_to_field loc = loc_to_field (loc.filter (fun x => !x.isNull)) ∧
    (loc.filter (fun x => !x.isNull) = [] → loc_to_field loc = "") := by
  have hidem : (loc.filter (fun x => !x.isNull)).filter (fun x => !x.isNull)
      = loc.filter (fun x => !x.isNull) := by
    rw [List.filter_filter]
    simp
  constructor
  · rw [loc_to_field_eq loc, loc_to_field_eq (loc.filter (fun x => !x.isNull)),
      hidem]
  · intro h
    rw [loc_to_field_eq, h]

/-- C7 witness: `loc_to_field [None] = ""` via the empty-cleaned-sequence
branch of the theorem. -/
theorem loc_to_field_filters_first_witness :
    loc_to_field [Segment.null] = "" :=
  (loc_to_field_filters_first [Segment.null]).2 (by decide)

/-- C8: the `field` of each normalized detail depends only on the error
locations: for any two batches with equal location sequences, however
different their messages and types, the handler produces the same sequence
of `field` strings. -/
theorem field_noninterference (errs1 errs2 : List RawError)
    (h : errs1.map RawError.loc = errs2.map RawError.loc) :
    ((validation_exception_handler () errs1).content.error.details).map
        Detail.field =
    ((validation_exception_handler () errs2).content.error.details).map
        Detail.field := by
  have key : ∀ errs : List RawError,
      ((validation_exception_handler () errs).content.error.details).map
          Detail.field
        = (errs.map RawError.loc).map (fun o => loc_to_field (o.getD [])) := by
    intro errs
    simp only [validation_exception_handler, List.map_map]
    rfl
  rw [key, key, h]

/-- C8 witness: same location, different message and type, same field. -/
theorem field_noninterference_witness :
    ((validation_exception_handler ()
        [({ loc := some [Segment.str "body", Segment.str "age"]
          , msg := some "value is not a valid integer"
          , type := some "int_parsing" } : RawError)]).content.error.details).map
        Detail.field =
    ((validation_exception_handler ()
        [({ loc := some [Segment.str "body", Segment.str "age"]
          , msg := some "field required"
          , type := some "missing" } : RawError)]).content.error.details).map
        Detail.field :=
  field_noninterference _ _ (by decide)

/-- C9: on the empty batch the handler still returns the well-formed 422
envelope, with `details` the empty list. -/
theorem handler_empty_batch :
    validation_exception_handler () ([] : List RawError) =
      { status_code := 422
      , content := { error := { code := 422, message := "Validation Error"
                              , details := [] } } } :=
  rfl

/-- C10: the handler's status code and body are independent of the request
argument: two invocations with the same error batch but arbitrary different
request values (even of different types) agree on both. -/
theorem handler_ignores_request {R1 R2 : Type} (r1 : R1) (r2 : R2)
    (errors : List RawError) :
    (validation_exception_handler r1 errors).status_code
        = (validation_exception_handler r2 errors).status_code ∧
    (validation_exception_handler r1 errors).content
        = (validation_exception_handler r2 errors).content :=
  ⟨rfl, rfl⟩
